import Mathlib

/-!
Verification of the PDF geometric transform engine.

The numeric model is the rational numbers: every arithmetic operation of the
engine (add, sub, mul, div, min, max, abs, floor-based rounding) is exact on
the inputs the claims quantify over, so ℚ is a faithful shallow embedding of
the JavaScript number semantics on those inputs.  The only transcendental
computations of the engine (the affine matrix and the pdf draw position,
which call cos and sin) are embedded over ℝ.

JavaScript-specific numeric operators are modelled explicitly:
  - the remainder operator x % y truncates toward zero (jsRem / jsTrunc);
  - Math.round rounds half toward positive infinity (jround);
  - Math.sign (jsign);
  - the defaulting idiom v || d treats 0 as absent (jsOr), while a
    destructuring default { v = d } only replaces an absent field (Option.getD).
-/

/-- Truncation toward zero, the rounding used by the JavaScript % operator. -/
def jsTrunc (q : ℚ) : ℤ := if 0 ≤ q then ⌊q⌋ else ⌈q⌉

/-- The JavaScript remainder a % b (sign of the dividend). -/
def jsRem (a b : ℚ) : ℚ := a - b * jsTrunc (a / b)

/-- Math.round: round half toward positive infinity. -/
def jround (q : ℚ) : ℤ := ⌊q + 1/2⌋

/-- Math.sign. -/
def jsign (q : ℚ) : ℚ := if 0 < q then 1 else if q < 0 then -1 else 0

/-- The JavaScript defaulting idiom `v || d` on an optional numeric field:
both an absent field and a zero field fall back to the default. -/
def jsOr (v : Option ℚ) (d : ℚ) : ℚ :=
  match v with
  | none => d
  | some q => if q = 0 then d else q

@[ext]
structure Dimensions where
  width : ℚ
  height : ℚ
deriving DecidableEq

@[ext]
structure CropArea where
  x : ℚ
  y : ℚ
  width : ℚ
  height : ℚ
deriving DecidableEq

@[ext]
structure EditHistory where
  cropArea : Option CropArea
  rotation : Option ℚ
  scale : Option ℚ
  offsetX : Option ℚ
  offsetY : Option ℚ
deriving DecidableEq

@[ext]
structure SourceRect where
  x : ℚ
  y : ℚ
  width : ℚ
  height : ℚ
deriving DecidableEq

/-- The rational-valued fields of the geometric transform.  The two
transcendental fields of the source record (pdfDrawX, pdfDrawY) are embedded
separately over ℝ as pdfDrawPosition below. -/
@[ext]
structure GeometricTransform where
  sourceRect : SourceRect
  scaleToFit : ℚ
  finalScale : ℚ
  drawWidth : ℚ
  drawHeight : ℚ
  drawX : ℚ
  drawY : ℚ
  pdfRotation : ℚ
  offsetX : ℚ
  offsetY : ℚ
deriving DecidableEq

/-- normalizeRotation from the geometry module: ((r % 360) + 360) % 360. -/
def normalizeRotation (r : ℚ) : ℚ := jsRem (jsRem r 360 + 360) 360

/-- The rotation case selected by the crop remapping functions:
Math.round(normalizedRotation / 90) * 90. -/
def rotationCaseOf (r : ℚ) : ℤ := jround (normalizeRotation r / 90) * 90

/-- remapCropForRotation: convert a crop from rotated (visual) space back to
original page space. -/
def remapCropForRotation (crop : CropArea) (rotation : ℚ) : CropArea :=
  if rotationCaseOf rotation = 0 ∨ rotationCaseOf rotation = 360 then crop
  else if rotationCaseOf rotation = 90 then
    { x := 1 - (crop.y + crop.height), y := crop.x, width := crop.height, height := crop.width }
  else if rotationCaseOf rotation = 180 then
    { x := 1 - (crop.x + crop.width), y := 1 - (crop.y + crop.height),
      width := crop.width, height := crop.height }
  else if rotationCaseOf rotation = 270 then
    { x := crop.y, y := 1 - (crop.x + crop.width), width := crop.height, height := crop.width }
  else crop

/-- forwardMapCropToRotation: convert a crop from original page space to
rotated (visual) space. -/
def forwardMapCropToRotation (crop : CropArea) (rotation : ℚ) : CropArea :=
  if rotationCaseOf rotation = 0 ∨ rotationCaseOf rotation = 360 then crop
  else if rotationCaseOf rotation = 90 then
    { x := crop.y, y := 1 - (crop.x + crop.width), width := crop.height, height := crop.width }
  else if rotationCaseOf rotation = 180 then
    { x := 1 - (crop.x + crop.width), y := 1 - (crop.y + crop.height),
      width := crop.width, height := crop.height }
  else if rotationCaseOf rotation = 270 then
    { x := 1 - (crop.y + crop.height), y := crop.x, width := crop.height, height := crop.width }
  else crop

/-- remapCropBetweenRotations: old rotation space to original space, then
original space to new rotation space. -/
def remapCropBetweenRotations (crop : CropArea) (oldRotation newRotation : ℚ) : CropArea :=
  forwardMapCropToRotation (remapCropForRotation crop oldRotation) newRotation

/-- calculateScaleToFit from the geometry module. -/
def calculateScaleToFit (sourceWidth sourceHeight targetWidth targetHeight rotation : ℚ) : ℚ :=
  if normalizeRotation rotation = 90 ∨ normalizeRotation rotation = 270 then
    min (targetWidth / sourceHeight) (targetHeight / sourceWidth) * 0.90
  else
    min (targetWidth / sourceWidth) (targetHeight / sourceHeight) * 0.90

/-- isRotated90or270 from the geometry module. -/
def isRotated90or270 (rotation : ℚ) : Bool :=
  if normalizeRotation rotation = 90 ∨ normalizeRotation rotation = 270 then true else false

/-- The empty edit produced by the destructuring default editHistory || {}. -/
def defaultEditHistory : EditHistory :=
  { cropArea := none, rotation := none, scale := none, offsetX := none, offsetY := none }

/-- Destructured cropArea of buildGeometricTransform (no default value). -/
def editCropArea (e : Option EditHistory) : Option CropArea :=
  (e.getD defaultEditHistory).cropArea

/-- Destructured rotation of buildGeometricTransform (default 0; a present 0 stays 0). -/
def editRotation (e : Option EditHistory) : ℚ :=
  ((e.getD defaultEditHistory).rotation).getD 0

/-- Destructured scale of buildGeometricTransform (default 100). -/
def editScale (e : Option EditHistory) : ℚ :=
  ((e.getD defaultEditHistory).scale).getD 100

/-- Destructured offsetX of buildGeometricTransform (default 0). -/
def editOffsetX (e : Option EditHistory) : ℚ :=
  ((e.getD defaultEditHistory).offsetX).getD 0

/-- Destructured offsetY of buildGeometricTransform (default 0). -/
def editOffsetY (e : Option EditHistory) : ℚ :=
  ((e.getD defaultEditHistory).offsetY).getD 0

/-- Step 1 of buildGeometricTransform: the source rectangle in original page
pixel coordinates, remapping the crop out of rotated space when rotation is
nonzero. -/
def bgtSourceRect (originalDims : Dimensions) (e : Option EditHistory) : SourceRect :=
  match editCropArea e with
  | none => { x := 0, y := 0, width := originalDims.width, height := originalDims.height }
  | some cropArea =>
    let cropInOriginalSpace :=
      if editRotation e ≠ 0 then remapCropForRotation cropArea (editRotation e) else cropArea
    { x := cropInOriginalSpace.x * originalDims.width
      y := cropInOriginalSpace.y * originalDims.height
      width := cropInOriginalSpace.width * originalDims.width
      height := cropInOriginalSpace.height * originalDims.height }

/-- Step 2 of buildGeometricTransform: auto-fit scale, applied only when the
raw rotation is nonzero, with a 10 percent margin; dimensions swap against the
source rectangle at 90/270. -/
def bgtScaleToFit (originalDims targetDims : Dimensions) (e : Option EditHistory) : ℚ :=
  if editRotation e ≠ 0 then
    if normalizeRotation (editRotation e) = 90 ∨ normalizeRotation (editRotation e) = 270 then
      min (targetDims.width / (bgtSourceRect originalDims e).height)
        (targetDims.height / (bgtSourceRect originalDims e).width) * 0.90
    else
      min (targetDims.width / (bgtSourceRect originalDims e).width)
        (targetDims.height / (bgtSourceRect originalDims e).height) * 0.90
  else 1

/-- buildGeometricTransform from the geometry module (rational fields; the two
cos/sin-based pdf draw coordinates are pdfDrawPosition below). -/
def buildGeometricTransform (originalDims targetDims : Dimensions)
    (editHistory : Option EditHistory) : GeometricTransform :=
  let sourceRect := bgtSourceRect originalDims editHistory
  let scaleToFit := bgtScaleToFit originalDims targetDims editHistory
  let finalScale := scaleToFit * (editScale editHistory / 100)
  let drawWidth := sourceRect.width * finalScale
  let drawHeight := sourceRect.height * finalScale
  { sourceRect := sourceRect
    scaleToFit := scaleToFit
    finalScale := finalScale
    drawWidth := drawWidth
    drawHeight := drawHeight
    drawX := -drawWidth / 2
    drawY := -drawHeight / 2
    pdfRotation := -(editRotation editHistory)
    offsetX := editOffsetX editHistory
    offsetY := editOffsetY editHistory }

/-- clampRect from the canvas renderer adapter. -/
def clampRect (x y w h maxW maxH : ℚ) : SourceRect :=
  let cx := max 0 (min x (maxW - 1))
  let cy := max 0 (min y (maxH - 1))
  { x := cx
    y := cy
    width := max 1 (min w (maxW - cx))
    height := max 1 (min h (maxH - cy)) }

/-- calculateSourceRect from the canvas renderer adapter.  Per its contract the
rotation argument is already normalized to 0/90/180/270; the switch default
behaves like the 0 case. -/
def calculateSourceRect (crop : Option CropArea) (rotation : ℚ) (origW origH : ℚ) : SourceRect :=
  match crop with
  | none => { x := 0, y := 0, width := origW, height := origH }
  | some crop =>
    let viewW := if rotation = 90 ∨ rotation = 270 then origH else origW
    let viewH := if rotation = 90 ∨ rotation = 270 then origW else origH
    let vx := crop.x * viewW
    let vy := crop.y * viewH
    let vw := crop.width * viewW
    let vh := crop.height * viewH
    if rotation = 90 then clampRect vy (origH - vx - vw) vh vw origW origH
    else if rotation = 180 then clampRect (origW - vx - vw) (origH - vy - vh) vw vh origW origH
    else if rotation = 270 then clampRect (origW - vy - vh) vx vh vw origW origH
    else clampRect vx vy vw vh origW origH

/-- Steps 2 and 3 of the canvas renderer adapter renderPageToCanvas: the fit
scale with the 0.95 factor, computed against the post-rotation content size
and applied at every rotation. -/
def adapterFitScale (targetWidth targetHeight : ℚ) (sourceRect : SourceRect) (rotation : ℚ) : ℚ :=
  let contentW := if rotation = 90 ∨ rotation = 270 then sourceRect.height else sourceRect.width
  let contentH := if rotation = 90 ∨ rotation = 270 then sourceRect.width else sourceRect.height
  min (targetWidth * 0.95 / contentW) (targetHeight * 0.95 / contentH)

/-- Math.max(0, Math.min(1, q)), the coordinate clamp of the normalizer. -/
def clamp01 (q : ℚ) : ℚ := max 0 (min 1 q)

/-- Math.max(MIN_CROP_SIZE, Math.max(0, Math.min(1, q))), the size clamp of the
normalizer with MIN_CROP_SIZE = 0.01. -/
def clampCropSize (q : ℚ) : ℚ := max 0.01 (clamp01 q)

/-- Step 3 of the crop normalizer for one axis: if pos + size overflows 1,
shift the position to 1 - size when that stays nonnegative, else use the full
axis. -/
def shiftToFit (pos size : ℚ) : ℚ × ℚ :=
  if pos + size > 1 then
    if 0 ≤ 1 - size then (1 - size, size) else (0, 1)
  else (pos, size)

/-- The crop-normalization block of normalizeEditHistory: size clamp first,
then coordinate clamp, then overflow shift per axis, then the final validation
with the full-page fallback. -/
def normalizeCropArea (crop : CropArea) : CropArea :=
  let xw := shiftToFit (clamp01 crop.x) (clampCropSize crop.width)
  let yh := shiftToFit (clamp01 crop.y) (clampCropSize crop.height)
  if xw.1 < 0 ∨ yh.1 < 0 ∨ xw.2 ≤ 0 ∨ yh.2 ≤ 0 ∨ xw.1 + xw.2 > 1 ∨ yh.1 + yh.2 > 1 then
    { x := 0, y := 0, width := 1, height := 1 }
  else
    { x := xw.1, y := yh.1, width := xw.2, height := yh.2 }

/-- The rotation-normalization block of normalizeEditHistory: reduce to
[0, 360), remap above 180 into the negative range, then round to the nearest
0.1 degree. -/
def normRot (r : ℚ) : ℚ :=
  (jround ((if normalizeRotation r > 180 then normalizeRotation r - 360
    else normalizeRotation r) * 10) : ℚ) / 10

/-- The scale clamp of normalizeEditHistory (two sequential ifs in the source;
equivalent to this chain because 10 is not above 500). -/
def clampScale (s : ℚ) : ℚ := if s < 10 then 10 else if s > 500 then 500 else s

/-- The offset clamp of normalizeEditHistory. -/
def clampOffset (v maxOffset : ℚ) : ℚ := if |v| > maxOffset then jsign v * maxOffset else v

/-- normalizeEditHistory from the geometry module. -/
def normalizeEditHistory (originalDims : Dimensions)
    (editHistory : Option EditHistory) : EditHistory :=
  match editHistory with
  | none =>
    { cropArea := none, rotation := some 0, scale := some 100, offsetX := some 0, offsetY := some 0 }
  | some e =>
    { cropArea := e.cropArea.map normalizeCropArea
      rotation := some (normRot (jsOr e.rotation 0))
      scale := some (clampScale (jsOr e.scale 100))
      offsetX := some (clampOffset (jsOr e.offsetX 0) (originalDims.width * 0.5))
      offsetY := some (clampOffset (jsOr e.offsetY 0) (originalDims.height * 0.5)) }

/-- The affine transformation matrix [a, b, c, d, e, f]. -/
structure AffineMatrix where
  a : ℝ
  b : ℝ
  c : ℝ
  d : ℝ
  e : ℝ
  f : ℝ

/-- buildAffineMatrix from the geometry module, over the reals because it uses
cos and sin of the (negated, degree-to-radian converted) rotation. -/
noncomputable def buildAffineMatrix (centerX centerY rotation scale offsetX offsetY : ℝ) :
    AffineMatrix :=
  let radians := -rotation * Real.pi / 180
  let cosr := Real.cos radians
  let sinr := Real.sin radians
  let a := scale * cosr
  let b := scale * sinr
  let c := -scale * sinr
  let d := scale * cosr
  { a := a
    b := b
    c := c
    d := d
    e := centerX + offsetX - (centerX * a + centerY * c)
    f := centerY + offsetY - (centerX * b + centerY * d) }

/-- Step 6 of buildGeometricTransform: the absolute pdf draw position, over the
reals because it rotates the center-to-corner vector with cos and sin. -/
noncomputable def pdfDrawPosition (originalDims targetDims : Dimensions)
    (e : Option EditHistory) : ℝ × ℝ :=
  let t := buildGeometricTransform originalDims targetDims e
  let radians : ℝ := -((editRotation e : ℚ) : ℝ) * Real.pi / 180
  let cosr := Real.cos radians
  let sinr := Real.sin radians
  let vectorX : ℝ := -((t.drawWidth : ℚ) : ℝ) / 2
  let vectorY : ℝ := -((t.drawHeight : ℚ) : ℝ) / 2
  let rotatedVectorX := vectorX * cosr - vectorY * sinr
  let rotatedVectorY := vectorX * sinr + vectorY * cosr
  (((targetDims.width : ℚ) : ℝ) / 2 + rotatedVectorX + ((t.offsetX : ℚ) : ℝ),
   ((targetDims.height : ℚ) : ℝ) / 2 + rotatedVectorY - ((t.offsetY : ℚ) : ℝ))

/-- The record returned by buildCanonicalTransform: the geometric transform
spread together with the affine matrix. -/
structure CanonicalTransform where
  transform : GeometricTransform
  affineMatrix : AffineMatrix

/-- buildCanonicalTransform from the geometry module: normalize, build the
geometric transform, then build the affine matrix from the normalized edit. -/
noncomputable def buildCanonicalTransform (originalDims targetDims : Dimensions)
    (editHistory : Option EditHistory) : CanonicalTransform :=
  let normalized := normalizeEditHistory originalDims editHistory
  let transform := buildGeometricTransform originalDims targetDims (some normalized)
  { transform := transform
    affineMatrix :=
      buildAffineMatrix ((targetDims.width / 2 : ℚ) : ℝ) ((targetDims.height / 2 : ℚ) : ℝ)
        ((jsOr normalized.rotation 0 : ℚ) : ℝ) ((transform.finalScale : ℚ) : ℝ)
        ((jsOr normalized.offsetX 0 : ℚ) : ℝ) ((jsOr normalized.offsetY 0 : ℚ) : ℝ) }

/-- Fixed string constants used by recipe instances. -/
def emptyString : String := ""

def recipeVersionOne : String := "1.0"

def sampleFileName : String := "document.pdf"

/-- Source file metadata of a recipe. -/
structure RecipeSource where
  fileName : Option String
  fileSize : ℚ
  fileType : Option String
  totalPages : ℕ
deriving DecidableEq

/-- Per-page transform instructions of a recipe. -/
structure RecipeTransforms where
  rotation : Option ℚ
  scale : Option ℚ
  offsetX : Option ℚ
  offsetY : Option ℚ
  crop : Option CropArea
deriving DecidableEq

/-- One page entry of a recipe. -/
structure RecipePage where
  pageNumber : ℕ
  originalDimensions : Dimensions
  transforms : Option RecipeTransforms
  hasEdits : Bool
  isCropped : Bool
  fitCropToPage : Bool
deriving DecidableEq

/-- A print job recipe (the fields validateRecipe reads; print settings and
destination are not consulted by validation). -/
structure Recipe where
  version : Option String
  source : Option RecipeSource
  pages : Option (List RecipePage)
deriving DecidableEq

/-- The human-readable violation strings of validateRecipe, modelled as a
structured type carrying the same data (page number shown as index + 1, plus
the offending value). -/
inductive RecipeError where
  | missingVersion
  | missingSourceFileName
  | noPages
  | invalidRotation (page : ℕ) (rotation : ℚ)
  | invalidScale (page : ℕ) (scale : ℚ)
  | invalidCropArea (page : ℕ)
  | cropExceedsBounds (page : ℕ)
deriving DecidableEq

/-- The page-level checks of validateRecipe for one page.  The JavaScript
truthiness guards page.transforms?.rotation and page.transforms?.scale are
modelled by the explicit nonzero conjuncts. -/
def pageErrs (index : ℕ) (page : RecipePage) : List RecipeError :=
  match page.transforms with
  | none => []
  | some t =>
    (match t.rotation with
     | none => []
     | some r =>
       if r ≠ 0 ∧ ¬(r = 0 ∨ r = 90 ∨ r = 180 ∨ r = 270) then
         [RecipeError.invalidRotation (index + 1) r]
       else []) ++
    (match t.scale with
     | none => []
     | some s =>
       if s ≠ 0 ∧ (s < 10 ∨ s > 500) then [RecipeError.invalidScale (index + 1) s] else []) ++
    (match t.crop with
     | none => []
     | some cr =>
       (if cr.x < 0 ∨ cr.y < 0 ∨ cr.width ≤ 0 ∨ cr.height ≤ 0 then
          [RecipeError.invalidCropArea (index + 1)]
        else []) ++
       (if cr.x + cr.width > 1.01 ∨ cr.y + cr.height > 1.01 then
          [RecipeError.cropExceedsBounds (index + 1)]
        else []))

/-- The recipe.pages.forEach((page, index) => ...) loop of validateRecipe. -/
def pagesErrs : ℕ → List RecipePage → List RecipeError
  | _, [] => []
  | i, p :: ps => pageErrs i p ++ pagesErrs (i + 1) ps

/-- The return value of validateRecipe. -/
structure ValidationResult where
  valid : Bool
  errors : List RecipeError
deriving DecidableEq

/-- validateRecipe from the recipe exporter.  JavaScript string truthiness of
recipe.version and recipe.source?.fileName treats both a missing field and an
empty string as falsy. -/
def validateRecipe (recipe : Recipe) : ValidationResult :=
  let errors :=
    (if recipe.version = none ∨ recipe.version = some emptyString then
       [RecipeError.missingVersion]
     else []) ++
    (if recipe.source.bind (fun s => s.fileName) = none ∨
        recipe.source.bind (fun s => s.fileName) = some emptyString then
       [RecipeError.missingSourceFileName]
     else []) ++
    (if recipe.pages = none ∨ recipe.pages = some [] then [RecipeError.noPages] else []) ++
    (match recipe.pages with
     | none => []
     | some ps => pagesErrs 0 ps)
  { valid := errors.isEmpty, errors := errors }

/-- A complete, otherwise-valid recipe whose single page carries a scale of
exactly 0 (outside [10, 500], but falsy in JavaScript). -/
def scaleZeroRecipe : Recipe :=
  { version := some recipeVersionOne
    source := some
      { fileName := some sampleFileName
        fileSize := 1000
        fileType := none
        totalPages := 1 }
    pages := some
      [{ pageNumber := 1
         originalDimensions := ⟨595, 842⟩
         transforms := some
           { rotation := some 0
             scale := some 0
             offsetX := some 0
             offsetY := some 0
             crop := none }
         hasEdits := true
         isCropped := false
         fitCropToPage := false }] }

/-- Transforms carrying a rotation of 45, outside the allowed set. -/
def badRotationTransforms : RecipeTransforms :=
  { rotation := some 45, scale := some 100, offsetX := some 0, offsetY := some 0, crop := none }

/-- A page carrying the bad rotation transforms. -/
def badRotationPage : RecipePage :=
  { pageNumber := 1, originalDimensions := ⟨595, 842⟩,
    transforms := some badRotationTransforms,
    hasEdits := true, isCropped := false, fitCropToPage := false }

/-- A complete recipe whose single page carries a rotation of 45. -/
def badRotationRecipe : Recipe :=
  { version := some recipeVersionOne
    source := some
      { fileName := some sampleFileName
        fileSize := 1000
        fileType := none
        totalPages := 1 }
    pages := some [badRotationPage] }

/-- A source rectangle (in pixel units) on which the clamp of the canvas
renderer adapter is the identity. -/
abbrev NoClampNeeded (r : SourceRect) (maxW maxH : ℚ) : Prop :=
  0 ≤ r.x ∧ r.x ≤ maxW - 1 ∧ 0 ≤ r.y ∧ r.y ≤ maxH - 1 ∧
  1 ≤ r.width ∧ r.width ≤ maxW - r.x ∧ 1 ≤ r.height ∧ r.height ≤ maxH - r.y

theorem ceil_as_floor (a : ℚ) : ⌈a⌉ = -⌊-a⌋ := by simp [Int.floor_neg]

theorem rotationCase_0 : rotationCaseOf 0 = 0 := by
  norm_num [rotationCaseOf, normalizeRotation, jsRem, jsTrunc, jround, ceil_as_floor]

theorem rotationCase_90 : rotationCaseOf 90 = 90 := by
  norm_num [rotationCaseOf, normalizeRotation, jsRem, jsTrunc, jround, ceil_as_floor]

theorem rotationCase_180 : rotationCaseOf 180 = 180 := by
  norm_num [rotationCaseOf, normalizeRotation, jsRem, jsTrunc, jround, ceil_as_floor]

theorem rotationCase_270 : rotationCaseOf 270 = 270 := by
  norm_num [rotationCaseOf, normalizeRotation, jsRem, jsTrunc, jround, ceil_as_floor]

theorem rotationCase_360 : rotationCaseOf 360 = 0 := by
  norm_num [rotationCaseOf, normalizeRotation, jsRem, jsTrunc, jround, ceil_as_floor]

theorem remap_at_0 (c : CropArea) : remapCropForRotation c 0 = c := by
  norm_num [remapCropForRotation, rotationCase_0]

theorem remap_at_90 (c : CropArea) :
    remapCropForRotation c 90 =
      { x := 1 - (c.y + c.height), y := c.x, width := c.height, height := c.width } := by
  norm_num [remapCropForRotation, rotationCase_90]

theorem remap_at_180 (c : CropArea) :
    remapCropForRotation c 180 =
      { x := 1 - (c.x + c.width), y := 1 - (c.y + c.height),
        width := c.width, height := c.height } := by
  norm_num [remapCropForRotation, rotationCase_180]

theorem remap_at_270 (c : CropArea) :
    remapCropForRotation c 270 =
      { x := c.y, y := 1 - (c.x + c.width), width := c.height, height := c.width } := by
  norm_num [remapCropForRotation, rotationCase_270]

theorem remap_at_360 (c : CropArea) : remapCropForRotation c 360 = c := by
  norm_num [remapCropForRotation, rotationCase_360]

theorem fwd_at_0 (c : CropArea) : forwardMapCropToRotation c 0 = c := by
  norm_num [forwardMapCropToRotation, rotationCase_0]

theorem fwd_at_90 (c : CropArea) :
    forwardMapCropToRotation c 90 =
      { x := c.y, y := 1 - (c.x + c.width), width := c.height, height := c.width } := by
  norm_num [forwardMapCropToRotation, rotationCase_90]

theorem fwd_at_180 (c : CropArea) :
    forwardMapCropToRotation c 180 =
      { x := 1 - (c.x + c.width), y := 1 - (c.y + c.height),
        width := c.width, height := c.height } := by
  norm_num [forwardMapCropToRotation, rotationCase_180]

theorem fwd_at_270 (c : CropArea) :
    forwardMapCropToRotation c 270 =
      { x := 1 - (c.y + c.height), y := c.x, width := c.height, height := c.width } := by
  norm_num [forwardMapCropToRotation, rotationCase_270]

theorem fwd_at_360 (c : CropArea) : forwardMapCropToRotation c 360 = c := by
  norm_num [forwardMapCropToRotation, rotationCase_360]

theorem jsRem_spec_nonneg (a : ℚ) (h : 0 ≤ a) :
    0 ≤ jsRem a 360 ∧ jsRem a 360 < 360 ∧ ∃ k : ℤ, jsRem a 360 = a - 360 * k := by
  have hq : (0:ℚ) ≤ a / 360 := by positivity
  unfold jsRem jsTrunc
  rw [if_pos hq]
  have h1 : ((⌊a / 360⌋ : ℤ) : ℚ) ≤ a / 360 := Int.floor_le _
  have h2 : a / 360 < (⌊a / 360⌋ : ℤ) + 1 := Int.lt_floor_add_one _
  have h3 : 360 * ((⌊a / 360⌋ : ℤ) : ℚ) ≤ a := by
    have := mul_le_mul_of_nonneg_left h1 (by norm_num : (0:ℚ) ≤ 360)
    calc 360 * ((⌊a / 360⌋ : ℤ) : ℚ) ≤ 360 * (a / 360) := this
      _ = a := by ring
  have h4 : a < 360 * ((⌊a / 360⌋ : ℤ) : ℚ) + 360 := by
    have := mul_lt_mul_of_pos_left h2 (by norm_num : (0:ℚ) < 360)
    calc a = 360 * (a / 360) := by ring
      _ < 360 * (((⌊a / 360⌋ : ℤ) : ℚ) + 1) := this
      _ = 360 * ((⌊a / 360⌋ : ℤ) : ℚ) + 360 := by ring
  exact ⟨by linarith, by linarith, ⟨⌊a / 360⌋, by ring⟩⟩

theorem jsRem_spec_neg (a : ℚ) (h : a < 0) :
    -360 < jsRem a 360 ∧ jsRem a 360 ≤ 0 ∧ ∃ k : ℤ, jsRem a 360 = a - 360 * k := by
  have hq : ¬ (0:ℚ) ≤ a / 360 := by
    rw [not_le]
    exact div_neg_of_neg_of_pos h (by norm_num)
  unfold jsRem jsTrunc
  rw [if_neg hq]
  have h1 : a / 360 ≤ ((⌈a / 360⌉ : ℤ) : ℚ) := Int.le_ceil _
  have h2 : ((⌈a / 360⌉ : ℤ) : ℚ) < a / 360 + 1 := Int.ceil_lt_add_one _
  have h3 : a ≤ 360 * ((⌈a / 360⌉ : ℤ) : ℚ) := by
    have := mul_le_mul_of_nonneg_left h1 (by norm_num : (0:ℚ) ≤ 360)
    calc a = 360 * (a / 360) := by ring
      _ ≤ 360 * ((⌈a / 360⌉ : ℤ) : ℚ) := this
  have h4 : 360 * ((⌈a / 360⌉ : ℤ) : ℚ) < a + 360 := by
    have := mul_lt_mul_of_pos_left h2 (by norm_num : (0:ℚ) < 360)
    calc 360 * ((⌈a / 360⌉ : ℤ) : ℚ) < 360 * (a / 360 + 1) := this
      _ = a + 360 := by ring
  exact ⟨by linarith, by linarith, ⟨⌈a / 360⌉, by ring⟩⟩

theorem normalizeRotation_spec (r : ℚ) :
    0 ≤ normalizeRotation r ∧ normalizeRotation r < 360 ∧
      ∃ k : ℤ, normalizeRotation r = r - 360 * k := by
  unfold normalizeRotation
  rcases le_or_lt 0 r with h | h
  · obtain ⟨h1, h2, k, hk⟩ := jsRem_spec_nonneg r h
    obtain ⟨g1, g2, k2, hk2⟩ := jsRem_spec_nonneg (jsRem r 360 + 360) (by linarith)
    refine ⟨g1, g2, ⟨k + k2 - 1, ?_⟩⟩
    rw [hk2, hk]
    push_cast
    ring
  · obtain ⟨h1, h2, k, hk⟩ := jsRem_spec_neg r h
    obtain ⟨g1, g2, k2, hk2⟩ := jsRem_spec_nonneg (jsRem r 360 + 360) (by linarith)
    refine ⟨g1, g2, ⟨k + k2 - 1, ?_⟩⟩
    rw [hk2, hk]
    push_cast
    ring

theorem normalizeRotation_unique (r t : ℚ) (k : ℤ) (h0 : 0 ≤ t) (h1 : t < 360)
    (hk : r = t + 360 * k) : normalizeRotation r = t := by
  obtain ⟨g0, g1, k2, hk2⟩ := normalizeRotation_spec r
  have hdiff : normalizeRotation r - t = 360 * ((k : ℚ) - k2) := by
    rw [hk2, hk]
    ring
  have hb1 : ((k : ℚ) - k2) < 1 := by nlinarith
  have hb2 : (-1 : ℚ) < ((k : ℚ) - k2) := by nlinarith
  have hz : k - k2 = 0 := by
    have c1 : ((k - k2 : ℤ) : ℚ) < 1 := by push_cast; linarith
    have c2 : (-1 : ℚ) < ((k - k2 : ℤ) : ℚ) := by push_cast; linarith
    have d1 : (k - k2 : ℤ) < 1 := by exact_mod_cast c1
    have d2 : (-1 : ℤ) < (k - k2 : ℤ) := by exact_mod_cast c2
    omega
  have : (k : ℚ) - k2 = 0 := by
    have := congrArg (fun z : ℤ => (z : ℚ)) hz
    push_cast at this
    linarith
  linarith [hdiff, this]

theorem normalizeRotation_eq_self (r : ℚ) (h0 : 0 ≤ r) (h1 : r < 360) :
    normalizeRotation r = r :=
  normalizeRotation_unique r r 0 h0 h1 (by ring)

theorem jround_intCast (k : ℤ) : jround (k : ℚ) = k := by
  unfold jround
  rw [add_comm, Int.floor_add_int]
  norm_num

theorem rotationCaseOf_cases (r : ℚ) :
    rotationCaseOf r = 0 ∨ rotationCaseOf r = 90 ∨ rotationCaseOf r = 180 ∨
      rotationCaseOf r = 270 ∨ rotationCaseOf r = 360 := by
  obtain ⟨h0, h1, -⟩ := normalizeRotation_spec r
  have hk0 : (0:ℤ) ≤ jround (normalizeRotation r / 90) := by
    unfold jround
    apply Int.le_floor.mpr
    have : (0:ℚ) ≤ normalizeRotation r / 90 := by positivity
    push_cast
    linarith
  have hk4 : jround (normalizeRotation r / 90) ≤ 4 := by
    unfold jround
    have hfl := Int.floor_le (normalizeRotation r / 90 + 1/2)
    have hx : normalizeRotation r / 90 + 1/2 < 9/2 := by
      have : normalizeRotation r / 90 < 4 := by
        rw [div_lt_iff₀ (by norm_num : (0:ℚ) < 90)]
        linarith
      linarith
    have c1 : ((⌊normalizeRotation r / 90 + 1/2⌋ : ℤ) : ℚ) < 5 := by linarith
    have : (⌊normalizeRotation r / 90 + 1/2⌋ : ℤ) < 5 := by exact_mod_cast c1
    omega
  unfold rotationCaseOf
  have h5 : jround (normalizeRotation r / 90) = 0 ∨ jround (normalizeRotation r / 90) = 1 ∨
      jround (normalizeRotation r / 90) = 2 ∨ jround (normalizeRotation r / 90) = 3 ∨
      jround (normalizeRotation r / 90) = 4 := by omega
  rcases h5 with h | h | h | h | h <;> rw [h] <;> norm_num

/-- A crop rectangle whose fields are normalized coordinates inside the page. -/
abbrev InBoundsCrop (c : CropArea) : Prop :=
  0 ≤ c.x ∧ 0 ≤ c.y ∧ 0 ≤ c.width ∧ 0 ≤ c.height ∧ c.x + c.width ≤ 1 ∧ c.y + c.height ≤ 1

theorem remapBetween_roundtrip_exact (c : CropArea) (r1 r2 : ℚ)
    (h1 : r1 = 0 ∨ r1 = 90 ∨ r1 = 180 ∨ r1 = 270)
    (h2 : r2 = 0 ∨ r2 = 90 ∨ r2 = 180 ∨ r2 = 270) :
    remapCropBetweenRotations (remapCropBetweenRotations c r1 r2) r2 r1 = c := by
  rcases h1 with rfl | rfl | rfl | rfl <;> rcases h2 with rfl | rfl | rfl | rfl <;>
    cases c <;>
    simp only [remapCropBetweenRotations, remap_at_0, remap_at_90, remap_at_180, remap_at_270,
      fwd_at_0, fwd_at_90, fwd_at_180, fwd_at_270, CropArea.mk.injEq] <;>
    refine ⟨by ring_nf, by ring_nf, by ring_nf, by ring_nf⟩

/-- Claim C2: for rotations r1, r2 drawn from 0/90/180/270, remapping an
in-bounds crop from r1-space to r2-space and back returns the original crop
within 1e-9 in every field.  In the rational model the round trip is in fact
exact. -/
theorem remapBetween_roundtrip_claim (c : CropArea) (r1 r2 : ℚ)
    (h1 : r1 = 0 ∨ r1 = 90 ∨ r1 = 180 ∨ r1 = 270)
    (h2 : r2 = 0 ∨ r2 = 90 ∨ r2 = 180 ∨ r2 = 270)
    (_hc : InBoundsCrop c) :
    |(remapCropBetweenRotations (remapCropBetweenRotations c r1 r2) r2 r1).x - c.x|
        ≤ 1/1000000000 ∧
    |(remapCropBetweenRotations (remapCropBetweenRotations c r1 r2) r2 r1).y - c.y|
        ≤ 1/1000000000 ∧
    |(remapCropBetweenRotations (remapCropBetweenRotations c r1 r2) r2 r1).width - c.width|
        ≤ 1/1000000000 ∧
    |(remapCropBetweenRotations (remapCropBetweenRotations c r1 r2) r2 r1).height - c.height|
        ≤ 1/1000000000 := by
  rw [remapBetween_roundtrip_exact c r1 r2 h1 h2]
  norm_num

/-- Witness for C2 at crop (0.1, 0.2, 0.3, 0.4) and the rotation pair (90, 270). -/
theorem remapBetween_roundtrip_claim_witness :
    |(remapCropBetweenRotations
        (remapCropBetweenRotations ⟨0.1, 0.2, 0.3, 0.4⟩ 90 270) 270 90).x - (0.1 : ℚ)|
        ≤ 1/1000000000 :=
  (remapBetween_roundtrip_claim ⟨0.1, 0.2, 0.3, 0.4⟩ 90 270
    (by norm_num) (by norm_num) (by norm_num [InBoundsCrop])).1

/-- Claim C7: mapping a visual-space crop to original space at 90 degrees
follows x = 1-(y+h), y = x, w = h, h = w; in particular the crop
(0.1, 0.2, 0.3, 0.4) maps to (0.4, 0.1, 0.4, 0.3). -/
theorem remapCropForRotation_90_claim :
    (∀ c : CropArea, remapCropForRotation c 90 =
      { x := 1 - (c.y + c.height), y := c.x, width := c.height, height := c.width }) ∧
    remapCropForRotation ⟨0.1, 0.2, 0.3, 0.4⟩ 90 = ⟨0.4, 0.1, 0.4, 0.3⟩ := by
  refine ⟨remap_at_90, ?_⟩
  rw [remap_at_90]
  norm_num [CropArea.mk.injEq]

/-- Claim C5 (amended): the crop remappers do not treat a rotation that is not
a multiple of 90 as the identity; they snap the normalized rotation to the
nearest multiple of 90 (round half up of normalized/90) and apply the formula
of that case.  Only normalized rotations below 45 or at least 315 degrade to
the identity, and the warning fallback branch is unreachable because the
snapped case is always one of 0/90/180/270/360. -/
theorem remapCropForRotation_snap_claim (c : CropArea) (r : ℚ) :
    (rotationCaseOf r = 0 ∨ rotationCaseOf r = 90 ∨ rotationCaseOf r = 180 ∨
      rotationCaseOf r = 270 ∨ rotationCaseOf r = 360) ∧
    remapCropForRotation c r = remapCropForRotation c ((rotationCaseOf r : ℤ) : ℚ) ∧
    forwardMapCropToRotation c r = forwardMapCropToRotation c ((rotationCaseOf r : ℤ) : ℚ) ∧
    (normalizeRotation r < 45 →
      remapCropForRotation c r = c ∧ forwardMapCropToRotation c r = c) ∧
    (315 ≤ normalizeRotation r →
      remapCropForRotation c r = c ∧ forwardMapCropToRotation c r = c) := by
  have hcases := rotationCaseOf_cases r
  refine ⟨hcases, ?_, ?_, ?_, ?_⟩
  · rcases hcases with h | h | h | h | h
    · rw [h]; push_cast; rw [remap_at_0]; norm_num [remapCropForRotation, h]
    · rw [h]; push_cast; rw [remap_at_90]; norm_num [remapCropForRotation, h]
    · rw [h]; push_cast; rw [remap_at_180]; norm_num [remapCropForRotation, h]
    · rw [h]; push_cast; rw [remap_at_270]; norm_num [remapCropForRotation, h]
    · rw [h]; push_cast; rw [remap_at_360]; norm_num [remapCropForRotation, h]
  · rcases hcases with h | h | h | h | h
    · rw [h]; push_cast; rw [fwd_at_0]; norm_num [forwardMapCropToRotation, h]
    · rw [h]; push_cast; rw [fwd_at_90]; norm_num [forwardMapCropToRotation, h]
    · rw [h]; push_cast; rw [fwd_at_180]; norm_num [forwardMapCropToRotation, h]
    · rw [h]; push_cast; rw [fwd_at_270]; norm_num [forwardMapCropToRotation, h]
    · rw [h]; push_cast; rw [fwd_at_360]; norm_num [forwardMapCropToRotation, h]
  · intro h45
    obtain ⟨h0, -, -⟩ := normalizeRotation_spec r
    have hz : rotationCaseOf r = 0 := by
      unfold rotationCaseOf jround
      have hfl : ⌊normalizeRotation r / 90 + 1/2⌋ = 0 := by
        rw [Int.floor_eq_zero_iff, Set.mem_Ico]
        have hpos : (0:ℚ) ≤ normalizeRotation r / 90 := by positivity
        have hlt : normalizeRotation r / 90 < 1/2 := by
          rw [div_lt_iff₀ (by norm_num : (0:ℚ) < 90)]
          linarith
        constructor <;> linarith
      rw [hfl]
      norm_num
    simp [remapCropForRotation, forwardMapCropToRotation, hz]
  · intro h315
    obtain ⟨-, h360, -⟩ := normalizeRotation_spec r
    have hz : rotationCaseOf r = 360 := by
      unfold rotationCaseOf jround
      have hfl : ⌊normalizeRotation r / 90 + 1/2⌋ = 4 := by
        rw [Int.floor_eq_iff]
        have hge : (7:ℚ)/2 ≤ normalizeRotation r / 90 := by
          rw [le_div_iff₀ (by norm_num : (0:ℚ) < 90)]
          linarith
        have hlt : normalizeRotation r / 90 < 4 := by
          rw [div_lt_iff₀ (by norm_num : (0:ℚ) < 90)]
          linarith
        constructor
        · push_cast
          linarith
        · push_cast
          linarith
      rw [hfl]
      norm_num
    simp [remapCropForRotation, forwardMapCropToRotation, hz]

/-- Counterexample to C5 as stated: rotation 45 is not a multiple of 90, yet
remapCropForRotation applies the 90 degree formula instead of returning the
crop unchanged. -/
theorem remapCropForRotation_45_counterexample :
    remapCropForRotation ⟨0.1, 0.2, 0.3, 0.4⟩ 45 = ⟨0.4, 0.1, 0.4, 0.3⟩ ∧
    remapCropForRotation ⟨0.1, 0.2, 0.3, 0.4⟩ 45 ≠ ⟨0.1, 0.2, 0.3, 0.4⟩ := by
  have h45 : rotationCaseOf 45 = 90 := by
    norm_num [rotationCaseOf, normalizeRotation, jsRem, jsTrunc, jround, ceil_as_floor]
  constructor <;> norm_num [remapCropForRotation, h45, CropArea.mk.injEq]

/-- Witness for C5 (amended) at rotation 30, which normalizes below 45 and so
passes the crop through unchanged. -/
theorem remapCropForRotation_snap_claim_witness :
    remapCropForRotation ⟨0.25, 0.25, 0.5, 0.5⟩ 30 = ⟨0.25, 0.25, 0.5, 0.5⟩ :=
  ((remapCropForRotation_snap_claim ⟨0.25, 0.25, 0.5, 0.5⟩ 30).2.2.2.1
    (by norm_num [normalizeRotation, jsRem, jsTrunc, ceil_as_floor])).1

theorem buildGeometricTransform_sourceRect (o t : Dimensions) (e : Option EditHistory) :
    (buildGeometricTransform o t e).sourceRect = bgtSourceRect o e := rfl

theorem buildGeometricTransform_scaleToFit (o t : Dimensions) (e : Option EditHistory) :
    (buildGeometricTransform o t e).scaleToFit = bgtScaleToFit o t e := rfl

theorem engineRect_rot0 (c : CropArea) (W H : ℚ) :
    bgtSourceRect ⟨W, H⟩ (some ⟨some c, some 0, some 100, some 0, some 0⟩) =
      { x := c.x * W, y := c.y * H, width := c.width * W, height := c.height * H } := by
  norm_num [bgtSourceRect, editCropArea, editRotation, defaultEditHistory]

theorem engineRect_rot90 (c : CropArea) (W H : ℚ) :
    bgtSourceRect ⟨W, H⟩ (some ⟨some c, some 90, some 100, some 0, some 0⟩) =
      { x := (1 - (c.y + c.height)) * W, y := c.x * H,
        width := c.height * W, height := c.width * H } := by
  norm_num [bgtSourceRect, editCropArea, editRotation, defaultEditHistory, remap_at_90]

theorem engineRect_rot180 (c : CropArea) (W H : ℚ) :
    bgtSourceRect ⟨W, H⟩ (some ⟨some c, some 180, some 100, some 0, some 0⟩) =
      { x := (1 - (c.x + c.width)) * W, y := (1 - (c.y + c.height)) * H,
        width := c.width * W, height := c.height * H } := by
  norm_num [bgtSourceRect, editCropArea, editRotation, defaultEditHistory, remap_at_180]

theorem engineRect_rot270 (c : CropArea) (W H : ℚ) :
    bgtSourceRect ⟨W, H⟩ (some ⟨some c, some 270, some 100, some 0, some 0⟩) =
      { x := c.y * W, y := (1 - (c.x + c.width)) * H,
        width := c.height * W, height := c.width * H } := by
  norm_num [bgtSourceRect, editCropArea, editRotation, defaultEditHistory, remap_at_270]

theorem clampRect_id (x y w h maxW maxH : ℚ)
    (h1 : 0 ≤ x) (h2 : x ≤ maxW - 1) (h3 : 0 ≤ y) (h4 : y ≤ maxH - 1)
    (h5 : 1 ≤ w) (h6 : w ≤ maxW - x) (h7 : 1 ≤ h) (h8 : h ≤ maxH - y) :
    clampRect x y w h maxW maxH = { x := x, y := y, width := w, height := h } := by
  simp only [clampRect]
  simp only [min_eq_left h2, max_eq_right h1, min_eq_left h4, max_eq_right h3]
  simp only [min_eq_left h6, max_eq_right h5, min_eq_left h8, max_eq_right h7]

/-- Claim C6: with rotation 0 buildGeometricTransform never auto-scales
(scaleToFit = 1); buildCanonicalTransform of the absent edit is the identity
transform; and the crop-only scenario (595 x 842, crop the top-left quarter,
rotation 0, scale 100) keeps a 1:1 size relationship. -/
theorem buildGeometricTransform_noRotation_claim :
    (∀ (o t : Dimensions) (e : Option EditHistory),
        editRotation e = 0 → (buildGeometricTransform o t e).scaleToFit = 1) ∧
    (∀ d : Dimensions,
        (buildCanonicalTransform d d none).transform.finalScale = 1 ∧
        (buildCanonicalTransform d d none).transform.sourceRect =
          { x := 0, y := 0, width := d.width, height := d.height } ∧
        (buildCanonicalTransform d d none).transform.drawWidth = d.width ∧
        (buildCanonicalTransform d d none).transform.drawHeight = d.height) ∧
    ((buildGeometricTransform ⟨595, 842⟩ ⟨595, 842⟩
        (some ⟨some ⟨0, 0, 0.5, 0.5⟩, some 0, some 100, some 0, some 0⟩)).scaleToFit = 1 ∧
     (buildGeometricTransform ⟨595, 842⟩ ⟨595, 842⟩
        (some ⟨some ⟨0, 0, 0.5, 0.5⟩, some 0, some 100, some 0, some 0⟩)).sourceRect =
       { x := 0, y := 0, width := 297.5, height := 421 } ∧
     (buildGeometricTransform ⟨595, 842⟩ ⟨595, 842⟩
        (some ⟨some ⟨0, 0, 0.5, 0.5⟩, some 0, some 100, some 0, some 0⟩)).drawWidth = 297.5) := by
  refine ⟨?_, ?_, ?_⟩
  · intro o t e h
    simp [buildGeometricTransform, bgtScaleToFit, h]
  · intro d
    refine ⟨?_, ?_, ?_, ?_⟩ <;>
      norm_num [buildCanonicalTransform, normalizeEditHistory, buildGeometricTransform,
        bgtScaleToFit, bgtSourceRect, editRotation, editScale, editCropArea, editOffsetX,
        editOffsetY, defaultEditHistory, jsOr]
  · refine ⟨?_, ?_, ?_⟩ <;>
      norm_num [buildGeometricTransform, bgtScaleToFit, bgtSourceRect, editRotation,
        editScale, editCropArea, editOffsetX, editOffsetY, defaultEditHistory,
        SourceRect.mk.injEq]

/-- Witness for C6: the scaleToFit conjunct applied at the crop-only scenario. -/
theorem buildGeometricTransform_noRotation_claim_witness :
    (buildGeometricTransform ⟨600, 800⟩ ⟨600, 800⟩
      (some ⟨some ⟨0.25, 0.25, 0.5, 0.5⟩, some 0, some 100, some 0, some 0⟩)).scaleToFit = 1 :=
  buildGeometricTransform_noRotation_claim.1 ⟨600, 800⟩ ⟨600, 800⟩
    (some ⟨some ⟨0.25, 0.25, 0.5, 0.5⟩, some 0, some 100, some 0, some 0⟩)
    (by norm_num [editRotation, defaultEditHistory])

/-- Claim C8 (amended): for 595 x 842 rotated 90 at scale 100 with no crop,
scaleToFit = min(595/842, 842/595) x 0.90 which is about 0.6360, finalScale
equals it, and the draw size is drawWidth = 637245/1684 (about 378.41, not the
378.2 of the claim) and drawHeight = 535.5 exactly (not 535.6). -/
theorem buildGeometricTransform_rotation90_claim :
    (buildGeometricTransform ⟨595, 842⟩ ⟨595, 842⟩
        (some ⟨none, some 90, some 100, some 0, some 0⟩)).scaleToFit =
      min (595/842) (842/595) * 0.90 ∧
    |(buildGeometricTransform ⟨595, 842⟩ ⟨595, 842⟩
        (some ⟨none, some 90, some 100, some 0, some 0⟩)).scaleToFit - 0.6360| < 0.0001 ∧
    (buildGeometricTransform ⟨595, 842⟩ ⟨595, 842⟩
        (some ⟨none, some 90, some 100, some 0, some 0⟩)).finalScale =
      (buildGeometricTransform ⟨595, 842⟩ ⟨595, 842⟩
        (some ⟨none, some 90, some 100, some 0, some 0⟩)).scaleToFit ∧
    (buildGeometricTransform ⟨595, 842⟩ ⟨595, 842⟩
        (some ⟨none, some 90, some 100, some 0, some 0⟩)).drawWidth = 637245/1684 ∧
    (buildGeometricTransform ⟨595, 842⟩ ⟨595, 842⟩
        (some ⟨none, some 90, some 100, some 0, some 0⟩)).drawHeight = 535.5 ∧
    |(buildGeometricTransform ⟨595, 842⟩ ⟨595, 842⟩
        (some ⟨none, some 90, some 100, some 0, some 0⟩)).drawWidth - 378.41| < 0.01 := by
  refine ⟨?_, ?_, ?_, ?_, ?_, ?_⟩ <;>
    norm_num [buildGeometricTransform, bgtScaleToFit, bgtSourceRect, editRotation, editScale,
      editCropArea, editOffsetX, editOffsetY, defaultEditHistory, normalizeRotation, jsRem,
      jsTrunc, ceil_as_floor, min_def, abs_lt]

/-- Counterexample to C8 as stated: the computed drawWidth is more than 0.1
away from 378.2 and the computed drawHeight is more than 0.05 away from 535.6,
so the two quoted numbers are wrong at their displayed precision. -/
theorem buildGeometricTransform_rotation90_counterexample :
    (0.1 : ℚ) < |(buildGeometricTransform ⟨595, 842⟩ ⟨595, 842⟩
        (some ⟨none, some 90, some 100, some 0, some 0⟩)).drawWidth - 378.2| ∧
    (0.05 : ℚ) < |(buildGeometricTransform ⟨595, 842⟩ ⟨595, 842⟩
        (some ⟨none, some 90, some 100, some 0, some 0⟩)).drawHeight - 535.6| := by
  constructor <;>
    norm_num [buildGeometricTransform, bgtScaleToFit, bgtSourceRect, editRotation, editScale,
      editCropArea, editOffsetX, editOffsetY, defaultEditHistory, normalizeRotation, jsRem,
      jsTrunc, ceil_as_floor, min_def, lt_abs]

/-- Claim C1 (amended): the two renderers do not produce the same numbers.
What does hold: whenever the adapter clamp is the identity, the adapter source
rectangle agrees with the engine source rectangle at rotations 0 and 180,
while at rotations 90 and 270 the adapter computes the engine rectangle of the
opposite rotation (270 and 90 respectively); the fit factors (0.95 applied at
every rotation versus 0.90 applied only under rotation) differ, as the
counterexample shows. -/
theorem calculateSourceRect_vs_engine_claim (c : CropArea) (W H : ℚ) :
    (NoClampNeeded (bgtSourceRect ⟨W, H⟩ (some ⟨some c, some 0, some 100, some 0, some 0⟩)) W H →
      calculateSourceRect (some c) 0 W H =
        (buildGeometricTransform ⟨W, H⟩ ⟨W, H⟩
          (some ⟨some c, some 0, some 100, some 0, some 0⟩)).sourceRect) ∧
    (NoClampNeeded (bgtSourceRect ⟨W, H⟩ (some ⟨some c, some 180, some 100, some 0, some 0⟩)) W H →
      calculateSourceRect (some c) 180 W H =
        (buildGeometricTransform ⟨W, H⟩ ⟨W, H⟩
          (some ⟨some c, some 180, some 100, some 0, some 0⟩)).sourceRect) ∧
    (NoClampNeeded (bgtSourceRect ⟨W, H⟩ (some ⟨some c, some 270, some 100, some 0, some 0⟩)) W H →
      calculateSourceRect (some c) 90 W H =
        (buildGeometricTransform ⟨W, H⟩ ⟨W, H⟩
          (some ⟨some c, some 270, some 100, some 0, some 0⟩)).sourceRect) ∧
    (NoClampNeeded (bgtSourceRect ⟨W, H⟩ (some ⟨some c, some 90, some 100, some 0, some 0⟩)) W H →
      calculateSourceRect (some c) 270 W H =
        (buildGeometricTransform ⟨W, H⟩ ⟨W, H⟩
          (some ⟨some c, some 90, some 100, some 0, some 0⟩)).sourceRect) := by
  refine ⟨?_, ?_, ?_, ?_⟩
  · intro hnc
    rw [engineRect_rot0] at hnc
    obtain ⟨n1, n2, n3, n4, n5, n6, n7, n8⟩ := hnc
    rw [buildGeometricTransform_sourceRect, engineRect_rot0]
    norm_num [calculateSourceRect]
    exact clampRect_id _ _ _ _ _ _ n1 n2 n3 n4 n5 n6 n7 n8
  · intro hnc
    rw [engineRect_rot180] at hnc
    obtain ⟨n1, n2, n3, n4, n5, n6, n7, n8⟩ := hnc
    rw [buildGeometricTransform_sourceRect, engineRect_rot180]
    norm_num [calculateSourceRect]
    have e1 : W - c.x * W - c.width * W = (1 - (c.x + c.width)) * W := by ring
    have e2 : H - c.y * H - c.height * H = (1 - (c.y + c.height)) * H := by ring
    rw [e1, e2]
    exact clampRect_id _ _ _ _ _ _ n1 n2 n3 n4 n5 n6 n7 n8
  · intro hnc
    rw [engineRect_rot270] at hnc
    obtain ⟨n1, n2, n3, n4, n5, n6, n7, n8⟩ := hnc
    rw [buildGeometricTransform_sourceRect, engineRect_rot270]
    norm_num [calculateSourceRect]
    have e2 : H - c.x * H - c.width * H = (1 - (c.x + c.width)) * H := by ring
    rw [e2]
    exact clampRect_id _ _ _ _ _ _ n1 n2 n3 n4 n5 n6 n7 n8
  · intro hnc
    rw [engineRect_rot90] at hnc
    obtain ⟨n1, n2, n3, n4, n5, n6, n7, n8⟩ := hnc
    rw [buildGeometricTransform_sourceRect, engineRect_rot90]
    norm_num [calculateSourceRect]
    have e1 : W - c.y * W - c.height * W = (1 - (c.y + c.height)) * W := by ring
    rw [e1]
    exact clampRect_id _ _ _ _ _ _ n1 n2 n3 n4 n5 n6 n7 n8

/-- Counterexample to C1 as stated: at rotation 90 the adapter and the engine
compute different source rectangles for the same crop, and at rotation 0 the
adapter applies its 0.95 fit factor while the engine applies no auto-fit at
all (scaleToFit = 1). -/
theorem calculateSourceRect_vs_engine_counterexample :
    calculateSourceRect (some ⟨0.1, 0.2, 0.3, 0.4⟩) 90 595 842 ≠
      (buildGeometricTransform ⟨595, 842⟩ ⟨595, 842⟩
        (some ⟨some ⟨0.1, 0.2, 0.3, 0.4⟩, some 90, some 100, some 0, some 0⟩)).sourceRect ∧
    adapterFitScale 595 842 (calculateSourceRect none 0 595 842) 0 ≠
      (buildGeometricTransform ⟨595, 842⟩ ⟨595, 842⟩
        (some ⟨none, some 0, some 100, some 0, some 0⟩)).scaleToFit := by
  constructor
  · rw [buildGeometricTransform_sourceRect, engineRect_rot90]
    norm_num [calculateSourceRect, clampRect, SourceRect.mk.injEq]
  · rw [buildGeometricTransform_scaleToFit]
    norm_num [adapterFitScale, calculateSourceRect, clampRect, bgtScaleToFit, editRotation,
      defaultEditHistory, min_def]

/-- Witness for C1 (amended): the 90/270 correspondence at the concrete crop
(0.1, 0.2, 0.3, 0.4) on a 595 x 842 page, where no clamping occurs. -/
theorem calculateSourceRect_vs_engine_claim_witness :
    calculateSourceRect (some ⟨0.1, 0.2, 0.3, 0.4⟩) 90 595 842 =
      (buildGeometricTransform ⟨595, 842⟩ ⟨595, 842⟩
        (some ⟨some ⟨0.1, 0.2, 0.3, 0.4⟩, some 270, some 100, some 0, some 0⟩)).sourceRect :=
  (calculateSourceRect_vs_engine_claim ⟨0.1, 0.2, 0.3, 0.4⟩ 595 842).2.2.1
    (by rw [engineRect_rot270]; norm_num [NoClampNeeded])

/-- Claim C9: buildAffineMatrix produces a = scale cos, b = scale sin,
c = -scale sin, d = scale cos with radians = -rotation pi / 180, and the
translation components solve the system so that the matrix maps the center
point to center + offset. -/
theorem buildAffineMatrix_claim (centerX centerY rotation scale offsetX offsetY : ℝ) :
    (buildAffineMatrix centerX centerY rotation scale offsetX offsetY).a =
      scale * Real.cos (-rotation * Real.pi / 180) ∧
    (buildAffineMatrix centerX centerY rotation scale offsetX offsetY).b =
      scale * Real.sin (-rotation * Real.pi / 180) ∧
    (buildAffineMatrix centerX centerY rotation scale offsetX offsetY).c =
      -scale * Real.sin (-rotation * Real.pi / 180) ∧
    (buildAffineMatrix centerX centerY rotation scale offsetX offsetY).d =
      scale * Real.cos (-rotation * Real.pi / 180) ∧
    (buildAffineMatrix centerX centerY rotation scale offsetX offsetY).a * centerX +
      (buildAffineMatrix centerX centerY rotation scale offsetX offsetY).c * centerY +
      (buildAffineMatrix centerX centerY rotation scale offsetX offsetY).e =
        centerX + offsetX ∧
    (buildAffineMatrix centerX centerY rotation scale offsetX offsetY).b * centerX +
      (buildAffineMatrix centerX centerY rotation scale offsetX offsetY).d * centerY +
      (buildAffineMatrix centerX centerY rotation scale offsetX offsetY).f =
        centerY + offsetY := by
  refine ⟨rfl, rfl, ?_, rfl, ?_, ?_⟩
  · show -scale * Real.sin (-rotation * Real.pi / 180) = -scale * Real.sin (-rotation * Real.pi / 180)
    rfl
  · simp only [buildAffineMatrix]
    ring
  · simp only [buildAffineMatrix]
    ring

theorem clamp01_bounds (q : ℚ) : 0 ≤ clamp01 q ∧ clamp01 q ≤ 1 :=
  ⟨le_max_left _ _, max_le (by norm_num) (min_le_left _ _)⟩

theorem clamp01_fix (q : ℚ) (h0 : 0 ≤ q) (h1 : q ≤ 1) : clamp01 q = q := by
  unfold clamp01
  rw [min_eq_right h1, max_eq_right h0]

theorem clampCropSize_bounds (q : ℚ) : 0.01 ≤ clampCropSize q ∧ clampCropSize q ≤ 1 := by
  unfold clampCropSize
  exact ⟨le_max_left _ _, max_le (by norm_num) (clamp01_bounds q).2⟩

theorem clampCropSize_fix (q : ℚ) (h0 : 0.01 ≤ q) (h1 : q ≤ 1) : clampCropSize q = q := by
  unfold clampCropSize
  rw [clamp01_fix q (by linarith) h1, max_eq_right h0]

theorem shiftToFit_spec (pos size : ℚ) (hp0 : 0 ≤ pos) (hs0 : 0.01 ≤ size) (hs1 : size ≤ 1) :
    0 ≤ (shiftToFit pos size).1 ∧ 0.01 ≤ (shiftToFit pos size).2 ∧
    (shiftToFit pos size).2 ≤ 1 ∧ (shiftToFit pos size).1 + (shiftToFit pos size).2 ≤ 1 := by
  unfold shiftToFit
  split_ifs with h1 h2
  · exact ⟨h2, hs0, hs1, by norm_num⟩
  · exact ⟨le_refl 0, by norm_num, le_refl 1, by norm_num⟩
  · exact ⟨hp0, hs0, hs1, by linarith [not_lt.mp h1]⟩

theorem shiftToFit_fix (pos size : ℚ) (h : pos + size ≤ 1) : shiftToFit pos size = (pos, size) := by
  unfold shiftToFit
  rw [if_neg (not_lt.mpr h)]

theorem normalizeCropArea_bounds (c : CropArea) :
    0 ≤ (normalizeCropArea c).x ∧ (normalizeCropArea c).x ≤ 1 ∧
    0 ≤ (normalizeCropArea c).y ∧ (normalizeCropArea c).y ≤ 1 ∧
    0.01 ≤ (normalizeCropArea c).width ∧ (normalizeCropArea c).width ≤ 1 ∧
    0.01 ≤ (normalizeCropArea c).height ∧ (normalizeCropArea c).height ≤ 1 ∧
    (normalizeCropArea c).x + (normalizeCropArea c).width ≤ 1 ∧
    (normalizeCropArea c).y + (normalizeCropArea c).height ≤ 1 := by
  obtain ⟨hx0, hx1⟩ := clamp01_bounds c.x
  obtain ⟨hy0, hy1⟩ := clamp01_bounds c.y
  obtain ⟨hw0, hw1⟩ := clampCropSize_bounds c.width
  obtain ⟨hh0, hh1⟩ := clampCropSize_bounds c.height
  obtain ⟨a1, a2, a3, a4⟩ := shiftToFit_spec (clamp01 c.x) (clampCropSize c.width) hx0 hw0 hw1
  obtain ⟨b1, b2, b3, b4⟩ := shiftToFit_spec (clamp01 c.y) (clampCropSize c.height) hy0 hh0 hh1
  simp only [normalizeCropArea]
  split_ifs with hbad
  · norm_num
  · exact ⟨a1, by linarith, b1, by linarith, a2, a3, b2, b3, a4, b4⟩

theorem normalizeCropArea_fix (c : CropArea) :
    normalizeCropArea (normalizeCropArea c) = normalizeCropArea c := by
  obtain ⟨hx0, hx1, hy0, hy1, hw0, hw1, hh0, hh1, hxw, hyh⟩ := normalizeCropArea_bounds c
  set n := normalizeCropArea c with hn
  show normalizeCropArea n = n
  simp only [normalizeCropArea, clamp01_fix n.x hx0 hx1, clamp01_fix n.y hy0 hy1,
    clampCropSize_fix n.width hw0 hw1, clampCropSize_fix n.height hh0 hh1,
    shiftToFit_fix n.x n.width hxw, shiftToFit_fix n.y n.height hyh]
  rw [if_neg]
  push_neg
  exact ⟨hx0, hy0, by linarith, by linarith, hxw, hyh⟩

theorem normRot_bounds (r : ℚ) : -180 ≤ normRot r ∧ normRot r ≤ 180 := by
  obtain ⟨h0, h1, -⟩ := normalizeRotation_spec r
  unfold normRot
  set n := normalizeRotation r with hn
  set n1 := (if n > 180 then n - 360 else n) with hn1
  have hb : -180 < n1 ∧ n1 ≤ 180 := by
    rw [hn1]
    split_ifs with h
    · constructor <;> linarith
    · exact ⟨by linarith, not_lt.mp h⟩
  have hj1 : (-1800 : ℤ) ≤ jround (n1 * 10) := by
    unfold jround
    apply Int.le_floor.mpr
    push_cast
    linarith [hb.1]
  have hj2 : jround (n1 * 10) ≤ 1800 := by
    unfold jround
    have hfl := Int.floor_le (n1 * 10 + 1/2)
    have h2 : ((⌊n1 * 10 + 1/2⌋ : ℤ) : ℚ) < 1801 := by linarith [hb.2]
    have h3 : ⌊n1 * 10 + 1/2⌋ < 1801 := by exact_mod_cast h2
    omega
  constructor
  · have hc : ((-1800 : ℤ) : ℚ) ≤ ((jround (n1 * 10) : ℤ) : ℚ) := by exact_mod_cast hj1
    push_cast at hc
    linarith
  · have hc : ((jround (n1 * 10) : ℤ) : ℚ) ≤ ((1800 : ℤ) : ℚ) := by exact_mod_cast hj2
    push_cast at hc
    linarith

theorem normRot_mul10_int (r : ℚ) : ∃ k : ℤ, normRot r = (k : ℚ) / 10 :=
  ⟨jround ((if normalizeRotation r > 180 then normalizeRotation r - 360
      else normalizeRotation r) * 10), rfl⟩

theorem normRot_fix (r : ℚ) (h : normRot r ≠ -180) : normRot (normRot r) = normRot r := by
  obtain ⟨k, hk⟩ := normRot_mul10_int r
  obtain ⟨hb1, hb2⟩ := normRot_bounds r
  set v := normRot r with hv
  have hk1 : (-1800 : ℚ) ≤ (k : ℚ) := by
    rw [hk] at hb1
    linarith
  have hk2 : ((k : ℚ)) ≤ 1800 := by
    rw [hk] at hb2
    linarith
  have hkne : (k : ℚ) ≠ -1800 := by
    intro hcon
    apply h
    rw [hk, hcon]
    norm_num
  rcases le_or_lt 0 (k : ℚ) with hpos | hneg
  · have hv0 : 0 ≤ v := by
      rw [hk]
      exact div_nonneg hpos (by norm_num)
    have hnv : normalizeRotation v = v := normalizeRotation_eq_self v hv0 (by linarith)
    unfold normRot
    rw [hnv]
    rw [if_neg (not_lt.mpr hb2)]
    have hvk : v * 10 = (k : ℚ) := by
      rw [hk]
      field_simp
    rw [hvk, jround_intCast]
    exact hk.symm
  · have hklt : (-1800 : ℚ) < (k : ℚ) := lt_of_le_of_ne hk1 (Ne.symm hkne)
    have hvneg : v < 0 := by
      rw [hk]
      exact div_neg_of_neg_of_pos hneg (by norm_num)
    have hvgt : -180 < v := by
      rw [hk]
      linarith
    have hnv : normalizeRotation v = v + 360 :=
      normalizeRotation_unique v (v + 360) (-1) (by linarith) (by linarith) (by push_cast; ring)
    unfold normRot
    rw [hnv]
    rw [if_pos (by linarith : (180:ℚ) < v + 360)]
    have harg : v + 360 - 360 = v := by ring
    rw [harg]
    have hvk : v * 10 = (k : ℚ) := by
      rw [hk]
      field_simp
    rw [hvk, jround_intCast]
    exact hk.symm

theorem clampScale_bounds (s : ℚ) : 10 ≤ clampScale s ∧ clampScale s ≤ 500 := by
  unfold clampScale
  split_ifs with h1 h2 <;> constructor <;> linarith

theorem clampScale_fix (s : ℚ) (h1 : 10 ≤ s) (h2 : s ≤ 500) : clampScale s = s := by
  unfold clampScale
  rw [if_neg (not_lt.mpr h1), if_neg (not_lt.mpr h2)]

theorem clampOffset_bounds (v m : ℚ) (hm : 0 ≤ m) : |clampOffset v m| ≤ m := by
  unfold clampOffset jsign
  split_ifs with h h1 h2
  · rw [one_mul, abs_of_nonneg hm]
  · rw [neg_one_mul, abs_neg, abs_of_nonneg hm]
  · rw [zero_mul, abs_zero]
    exact hm
  · exact not_lt.mp h

theorem clampOffset_fix (v m : ℚ) (h : |v| ≤ m) : clampOffset v m = v := by
  unfold clampOffset
  rw [if_neg (not_lt.mpr h)]

theorem clampOffset_zero (m : ℚ) : clampOffset 0 m = 0 := by
  unfold clampOffset jsign
  split_ifs <;> norm_num at *

theorem jsOr_some_zero (v : ℚ) : jsOr (some v) 0 = v := by
  show (if v = 0 then (0:ℚ) else v) = v
  split_ifs with h
  · exact h.symm
  · rfl

theorem jsOr_some_of_ne (v d : ℚ) (h : v ≠ 0) : jsOr (some v) d = v := by
  show (if v = 0 then d else v) = v
  rw [if_neg h]

/-- Claim C4: normalizeEditHistory is total and its result is bounded: any
returned crop has all fields in [0,1] with x+width and y+height at most
1 + 1e-9 (in fact at most 1 exactly) and sizes at least 0.01; the rotation is
in [-180, 180]; the scale is in [10, 500]; and the offsets are bounded by half
the page dimensions. -/
theorem normalizeEditHistory_bounds_claim (d : Dimensions) (e : Option EditHistory)
    (hw : 0 < d.width) (hh : 0 < d.height) :
    (∀ c, (normalizeEditHistory d e).cropArea = some c →
        0 ≤ c.x ∧ c.x ≤ 1 ∧ 0 ≤ c.y ∧ c.y ≤ 1 ∧
        0 ≤ c.width ∧ c.width ≤ 1 ∧ 0 ≤ c.height ∧ c.height ≤ 1 ∧
        c.x + c.width ≤ 1 + 1/1000000000 ∧ c.y + c.height ≤ 1 + 1/1000000000 ∧
        0.01 ≤ c.width ∧ 0.01 ≤ c.height) ∧
    (∀ r, (normalizeEditHistory d e).rotation = some r → -180 ≤ r ∧ r ≤ 180) ∧
    (∀ s, (normalizeEditHistory d e).scale = some s → 10 ≤ s ∧ s ≤ 500) ∧
    (∀ ox, (normalizeEditHistory d e).offsetX = some ox → |ox| ≤ 0.5 * d.width) ∧
    (∀ oy, (normalizeEditHistory d e).offsetY = some oy → |oy| ≤ 0.5 * d.height) := by
  cases e with
  | none =>
    refine ⟨?_, ?_, ?_, ?_, ?_⟩
    · intro c hc
      rw [show (normalizeEditHistory d none).cropArea = none from rfl] at hc
      exact absurd hc (by simp)
    · intro r hr
      rw [show (normalizeEditHistory d none).rotation = some 0 from rfl] at hr
      obtain rfl := (Option.some.inj hr).symm
      norm_num
    · intro s hs
      rw [show (normalizeEditHistory d none).scale = some 100 from rfl] at hs
      obtain rfl := (Option.some.inj hs).symm
      norm_num
    · intro ox hox
      rw [show (normalizeEditHistory d none).offsetX = some 0 from rfl] at hox
      obtain rfl := (Option.some.inj hox).symm
      rw [abs_zero]
      linarith
    · intro oy hoy
      rw [show (normalizeEditHistory d none).offsetY = some 0 from rfl] at hoy
      obtain rfl := (Option.some.inj hoy).symm
      rw [abs_zero]
      linarith
  | some ed =>
    refine ⟨?_, ?_, ?_, ?_, ?_⟩
    · intro c hc
      rw [show (normalizeEditHistory d (some ed)).cropArea =
        ed.cropArea.map normalizeCropArea from rfl] at hc
      rw [Option.map_eq_some'] at hc
      obtain ⟨c0, -, rfl⟩ := hc
      obtain ⟨b1, b2, b3, b4, b5, b6, b7, b8, b9, b10⟩ := normalizeCropArea_bounds c0
      exact ⟨b1, b2, b3, b4, by linarith, b6, by linarith, b8, by linarith, by linarith, b5, b7⟩
    · intro r hr
      rw [show (normalizeEditHistory d (some ed)).rotation =
        some (normRot (jsOr ed.rotation 0)) from rfl] at hr
      obtain rfl := (Option.some.inj hr).symm
      exact normRot_bounds _
    · intro s hs
      rw [show (normalizeEditHistory d (some ed)).scale =
        some (clampScale (jsOr ed.scale 100)) from rfl] at hs
      obtain rfl := (Option.some.inj hs).symm
      exact clampScale_bounds _
    · intro ox hox
      rw [show (normalizeEditHistory d (some ed)).offsetX =
        some (clampOffset (jsOr ed.offsetX 0) (d.width * 0.5)) from rfl] at hox
      obtain rfl := (Option.some.inj hox).symm
      have := clampOffset_bounds (jsOr ed.offsetX 0) (d.width * 0.5) (by linarith)
      linarith
    · intro oy hoy
      rw [show (normalizeEditHistory d (some ed)).offsetY =
        some (clampOffset (jsOr ed.offsetY 0) (d.height * 0.5)) from rfl] at hoy
      obtain rfl := (Option.some.inj hoy).symm
      have := clampOffset_bounds (jsOr ed.offsetY 0) (d.height * 0.5) (by linarith)
      linarith

/-- Witness for C4: the offsetX bound at a concrete edit on a 595 x 842 page. -/
theorem normalizeEditHistory_bounds_claim_witness : |(10:ℚ)| ≤ 0.5 * 595 :=
  (normalizeEditHistory_bounds_claim ⟨595, 842⟩
      (some ⟨some ⟨0.5, 0.5, 0.25, 0.25⟩, some 45, some 60, some 10, some (-7)⟩)
      (by norm_num) (by norm_num)).2.2.2.1 10
    (by norm_num [normalizeEditHistory, clampOffset, jsOr])

/-- Claim C3 (amended): normalizeEditHistory is idempotent for every edit
whose normalized rotation is not exactly -180.  (When the rotation normalizes
to -180 — which happens for raw rotations just above 180, for example 180.04 —
a second pass maps -180 to +180, so full idempotence fails; see the
counterexample.) -/
theorem normalizeEditHistory_idempotent_claim (d : Dimensions) (e : Option EditHistory)
    (hw : 0 < d.width) (hh : 0 < d.height)
    (hrot : (normalizeEditHistory d e).rotation ≠ some (-180)) :
    normalizeEditHistory d (some (normalizeEditHistory d e)) = normalizeEditHistory d e := by
  cases e with
  | none =>
    show normalizeEditHistory d
        (some ⟨none, some 0, some 100, some 0, some 0⟩) =
      (⟨none, some 0, some 100, some 0, some 0⟩ : EditHistory)
    norm_num [normalizeEditHistory, EditHistory.mk.injEq, jsOr, clampOffset_zero, normRot,
      normalizeRotation, jsRem, jsTrunc, jround, ceil_as_floor, clampScale]
  | some ed =>
    have hrot' : normRot (jsOr ed.rotation 0) ≠ -180 := by
      intro hcon
      apply hrot
      show some (normRot (jsOr ed.rotation 0)) = some (-180)
      rw [hcon]
    obtain ⟨hs1, hs2⟩ := clampScale_bounds (jsOr ed.scale 100)
    have hmx : (0:ℚ) ≤ d.width * 0.5 := by linarith
    have hmy : (0:ℚ) ≤ d.height * 0.5 := by linarith
    have hox := clampOffset_bounds (jsOr ed.offsetX 0) (d.width * 0.5) hmx
    have hoy := clampOffset_bounds (jsOr ed.offsetY 0) (d.height * 0.5) hmy
    refine EditHistory.ext ?_ ?_ ?_ ?_ ?_
    · show (ed.cropArea.map normalizeCropArea).map normalizeCropArea =
        ed.cropArea.map normalizeCropArea
      cases ed.cropArea with
      | none => rfl
      | some c => simp [normalizeCropArea_fix]
    · show some (normRot (jsOr (some (normRot (jsOr ed.rotation 0))) 0)) =
        some (normRot (jsOr ed.rotation 0))
      rw [jsOr_some_zero, normRot_fix _ hrot']
    · show some (clampScale (jsOr (some (clampScale (jsOr ed.scale 100))) 100)) =
        some (clampScale (jsOr ed.scale 100))
      rw [jsOr_some_of_ne _ _ (by linarith), clampScale_fix _ hs1 hs2]
    · show some (clampOffset (jsOr (some (clampOffset (jsOr ed.offsetX 0) (d.width * 0.5))) 0)
          (d.width * 0.5)) =
        some (clampOffset (jsOr ed.offsetX 0) (d.width * 0.5))
      rw [jsOr_some_zero, clampOffset_fix _ _ hox]
    · show some (clampOffset (jsOr (some (clampOffset (jsOr ed.offsetY 0) (d.height * 0.5))) 0)
          (d.height * 0.5)) =
        some (clampOffset (jsOr ed.offsetY 0) (d.height * 0.5))
      rw [jsOr_some_zero, clampOffset_fix _ _ hoy]

/-- Counterexample to C3 as stated: rotation 180.04 (as 4501/25) normalizes to
-180 on the first pass; the second pass sends -180 to +180, so the normalizer
is not idempotent on this edit. -/
theorem normalizeEditHistory_idempotent_counterexample :
    (normalizeEditHistory ⟨595, 842⟩
        (some ⟨none, some (4501/25), some 100, some 0, some 0⟩)).rotation = some (-180) ∧
    (normalizeEditHistory ⟨595, 842⟩ (some (normalizeEditHistory ⟨595, 842⟩
        (some ⟨none, some (4501/25), some 100, some 0, some 0⟩)))).rotation = some 180 ∧
    normalizeEditHistory ⟨595, 842⟩ (some (normalizeEditHistory ⟨595, 842⟩
        (some ⟨none, some (4501/25), some 100, some 0, some 0⟩))) ≠
      normalizeEditHistory ⟨595, 842⟩ (some ⟨none, some (4501/25), some 100, some 0, some 0⟩) := by
  refine ⟨?_, ?_, ?_⟩ <;>
    norm_num [normalizeEditHistory, EditHistory.mk.injEq, jsOr, clampOffset, jsign, clampScale,
      normRot, normalizeRotation, jsRem, jsTrunc, jround, ceil_as_floor]

/-- Witness for C3 (amended) at a concrete edit whose rotation normalizes to
90. -/
theorem normalizeEditHistory_idempotent_claim_witness :
    normalizeEditHistory ⟨595, 842⟩ (some (normalizeEditHistory ⟨595, 842⟩
        (some ⟨some ⟨0.1, 0.2, 0.3, 0.4⟩, some 90, some 100, some 5, some (-3)⟩))) =
      normalizeEditHistory ⟨595, 842⟩
        (some ⟨some ⟨0.1, 0.2, 0.3, 0.4⟩, some 90, some 100, some 5, some (-3)⟩) :=
  normalizeEditHistory_idempotent_claim ⟨595, 842⟩
    (some ⟨some ⟨0.1, 0.2, 0.3, 0.4⟩, some 90, some 100, some 5, some (-3)⟩)
    (by norm_num) (by norm_num)
    (by norm_num [normalizeEditHistory, jsOr, normRot, normalizeRotation, jsRem, jsTrunc,
      jround, ceil_as_floor])

theorem recipeVersionOne_ne_empty : recipeVersionOne ≠ emptyString := by decide

theorem sampleFileName_ne_empty : sampleFileName ≠ emptyString := by decide

theorem mem_pagesErrs (k : ℕ) (ps : List RecipePage) (i : ℕ) (hi : i < ps.length)
    (e : RecipeError) (he : e ∈ pageErrs (k + i) (ps.get ⟨i, hi⟩)) :
    e ∈ pagesErrs k ps := by
  induction ps generalizing k i with
  | nil => exact absurd hi (by simp)
  | cons p rest ih =>
    cases i with
    | zero =>
      exact List.mem_append_left _ he
    | succ j =>
      have hj : j < rest.length := by simpa using hi
      have he' : e ∈ pageErrs ((k + 1) + j) (rest.get ⟨j, hj⟩) := by
        rw [show (k + 1) + j = k + (j + 1) from by omega]
        exact he
      exact List.mem_append_right _ (ih (k + 1) j hj he')

theorem validateRecipe_errors_mem (recipe : Recipe) (ps : List RecipePage)
    (hps : recipe.pages = some ps) (e : RecipeError) (he : e ∈ pagesErrs 0 ps) :
    e ∈ (validateRecipe recipe).errors := by
  simp only [validateRecipe, hps]
  exact List.mem_append_right _ he

/-- Claim C10 (amended): validateRecipe reports an error for every page whose
transforms carry a rotation outside {0, 90, 180, 270}, a nonzero scale outside
[10, 500] (the JavaScript truthiness guard silently skips a scale of exactly
0, so the claim as stated fails there), or a crop with non-positive size,
negative position, or exceeding the 1.01 bound; and valid = true exactly when
the error list is empty.  The function is total, so it never throws. -/
theorem validateRecipe_claim (recipe : Recipe) (ps : List RecipePage)
    (hps : recipe.pages = some ps) (i : ℕ) (hi : i < ps.length) :
    (∀ t r, (ps.get ⟨i, hi⟩).transforms = some t → t.rotation = some r →
      ¬(r = 0 ∨ r = 90 ∨ r = 180 ∨ r = 270) →
      RecipeError.invalidRotation (i + 1) r ∈ (validateRecipe recipe).errors) ∧
    (∀ t s, (ps.get ⟨i, hi⟩).transforms = some t → t.scale = some s →
      s ≠ 0 → (s < 10 ∨ 500 < s) →
      RecipeError.invalidScale (i + 1) s ∈ (validateRecipe recipe).errors) ∧
    (∀ t cr, (ps.get ⟨i, hi⟩).transforms = some t → t.crop = some cr →
      (cr.x < 0 ∨ cr.y < 0 ∨ cr.width ≤ 0 ∨ cr.height ≤ 0) →
      RecipeError.invalidCropArea (i + 1) ∈ (validateRecipe recipe).errors) ∧
    (∀ t cr, (ps.get ⟨i, hi⟩).transforms = some t → t.crop = some cr →
      (1.01 < cr.x + cr.width ∨ 1.01 < cr.y + cr.height) →
      RecipeError.cropExceedsBounds (i + 1) ∈ (validateRecipe recipe).errors) ∧
    ((validateRecipe recipe).valid = true ↔ (validateRecipe recipe).errors = []) := by
  refine ⟨?_, ?_, ?_, ?_, ?_⟩
  · intro t r ht hr hbad
    apply validateRecipe_errors_mem recipe ps hps
    apply mem_pagesErrs 0 ps i hi
    rw [Nat.zero_add]
    simp only [pageErrs, ht, hr]
    rw [if_pos ⟨fun h0 => hbad (Or.inl h0), hbad⟩]
    exact List.mem_append_left _ (List.mem_append_left _ (List.mem_singleton_self _))
  · intro t s ht hs hne hbad
    apply validateRecipe_errors_mem recipe ps hps
    apply mem_pagesErrs 0 ps i hi
    rw [Nat.zero_add]
    simp only [pageErrs, ht, hs]
    rw [if_pos ⟨hne, by rcases hbad with h | h; exact Or.inl h; exact Or.inr h⟩]
    exact List.mem_append_left _ (List.mem_append_right _ (List.mem_singleton_self _))
  · intro t cr ht hcr hbad
    apply validateRecipe_errors_mem recipe ps hps
    apply mem_pagesErrs 0 ps i hi
    rw [Nat.zero_add]
    simp only [pageErrs, ht, hcr]
    rw [if_pos hbad]
    exact List.mem_append_right _ (List.mem_append_left _ (List.mem_singleton_self _))
  · intro t cr ht hcr hbad
    apply validateRecipe_errors_mem recipe ps hps
    apply mem_pagesErrs 0 ps i hi
    rw [Nat.zero_add]
    simp only [pageErrs, ht, hcr]
    refine List.mem_append_right _ (List.mem_append_right _ ?_)
    rw [if_pos hbad]
    exact List.mem_singleton_self _
  · simp only [validateRecipe]
    exact List.isEmpty_iff

/-- Counterexample to C10 as stated: scaleZeroRecipe has a page whose scale is
0, which is outside [10, 500], yet validateRecipe reports no error at all for
it (scale 0 is falsy in JavaScript so the check is skipped) and declares the
recipe valid. -/
theorem validateRecipe_scaleZero_counterexample :
    ((0:ℚ) < 10 ∨ (500:ℚ) < 0) ∧
    (validateRecipe scaleZeroRecipe).errors = [] ∧
    (validateRecipe scaleZeroRecipe).valid = true := by
  refine ⟨Or.inl (by norm_num), ?_, ?_⟩ <;>
    · norm_num [validateRecipe, scaleZeroRecipe, pagesErrs, pageErrs]
      exact ⟨⟨Option.some_ne_none _, recipeVersionOne_ne_empty⟩,
        ⟨Option.some_ne_none _, sampleFileName_ne_empty⟩, Option.some_ne_none _⟩

/-- Witness for C10 (amended): the rotation check fires on badRotationRecipe,
whose single page carries rotation 45. -/
theorem validateRecipe_claim_witness :
    RecipeError.invalidRotation 1 45 ∈ (validateRecipe badRotationRecipe).errors :=
  (validateRecipe_claim badRotationRecipe [badRotationPage] rfl 0 (by norm_num)).1
    badRotationTransforms 45 rfl rfl (by norm_num)
